import Mathlib

/-
Verification of the volume-generation layer of the Building-Dataset-Generator
repository (src/volume.py): the Factory / CollectionFactory / Volume classes.

Modelling conventions:
* Python floats are modelled as exact rationals (ℚ); the arithmetic the
  claims are about (max-clamping, adding 2.7, rounding to one decimal)
  is exact at these magnitudes.
* numpy random draws are modelled by threading explicit draw arguments:
  np.random.randint(a, b) is modelled by `randint a b r` for a seed r : ℕ,
  which realises exactly the values of the half-open band [a, b);
  np.random.random() is modelled by a rational argument carrying the
  hypothesis 0 ≤ r < 1 where it matters.
* The configuration constants (MIN_WIDTH, ..., MAX_VOLUMES) live in
  dataset_config.py, which is not part of the sources; they are carried
  as an explicit `Config` record so every statement is generic in them.
* Host-application effects (Blender mesh operators) are modelled by
  instrumentation flags on the Volume record (meshCreated, createCount),
  and the module subsystem (module.py) by an environment of
  exception-returning oracles.
-/

namespace BuildingGen

/-- Modelled from the spec: the configuration constants of
dataset_config.py (not among the sources): per-axis minimum and maximum
dimensions and the maximum number of volumes per building. -/
structure Config where
  minWidth : ℤ
  minLength : ℤ
  minHeight : ℤ
  maxWidth : ℤ
  maxLength : ℤ
  maxHeight : ℤ
  maxVolumes : ℕ
deriving Repr, DecidableEq

/-- Model of np.random.randint(a, b): a uniform integer draw from the
half-open band [a, b), realised from a seed r as a + (r % (b - a)).
Every value of [a, b) is attained by some seed, and no other value is. -/
def randint (a b : ℤ) (r : ℕ) : ℤ := a + (r : ℤ) % (b - a)

/-- Model of Python round(x, 1): x rounded to one decimal place. -/
def round1 (q : ℚ) : ℚ := ((round (10 * q) : ℤ) : ℚ) / 10

/-- One volume of a building (class Volume of src/volume.py).
width/length/height/floor are the float attributes set by __init__;
meshCreated models `self.mesh is not None` (the host mesh handle), and
createCount instruments how many times create() ran on this volume. -/
structure Volume where
  width : ℚ
  length : ℚ
  height : ℚ
  floor : ℚ
  position : ℚ × ℚ × ℚ
  name : String
  meshCreated : Bool
  createCount : ℕ
deriving Repr, DecidableEq

/-- Volume.__init__ body (after its assertions): clamp each scale
component by the corresponding global minimum, store it as a float, and
draw the floor height as 2.7 + round(np.random.random(), 1).
rFloor is the np.random.random() draw. -/
def Volume.init (cfg : Config) (scale : ℚ × ℚ × ℚ) (location : ℚ × ℚ × ℚ)
    (rFloor : ℚ) : Volume :=
  { height := max (cfg.minHeight : ℚ) scale.2.2
    width := max (cfg.minWidth : ℚ) scale.1
    length := max (cfg.minLength : ℚ) scale.2.1
    floor := 27 / 10 + round1 rFloor
    position := location
    name := ""
    meshCreated := false
    createCount := 0 }

/-- Volume.create: materializes the host mesh (primitive plane, resize,
extrude, triangulate). Modelled as setting the mesh handle and counting
the invocation. -/
def Volume.create (v : Volume) : Volume :=
  { v with name := "volume", meshCreated := true, createCount := v.createCount + 1 }

/-- The random draws one call of Factory._produce_random consumes:
three randint seeds (the scale tuple components, in the order the source
builds them: length band, width band, height band) and the
np.random.random() draw of Volume.__init__. -/
structure Draws where
  rLen : ℕ
  rWid : ℕ
  rHei : ℕ
  rFloor : ℚ
deriving Repr

/-- Factory._produce_random: builds the scale tuple
(randint(min_length, max_length), randint(min_width, max_width),
randint(min_height, max_height)) and constructs a Volume from it with the
default location; it returns the volume without calling create(). -/
def Factory._produce_random (cfg : Config) (d : Draws) : Volume :=
  Volume.init cfg
    (((randint cfg.minLength cfg.maxLength d.rLen : ℤ) : ℚ),
     ((randint cfg.minWidth cfg.maxWidth d.rWid : ℤ) : ℚ),
     ((randint cfg.minHeight cfg.maxHeight d.rHei : ℤ) : ℚ))
    (0, 0, 0) d.rFloor

/-- Factory.produce: with an explicit scale, construct the volume, call
create() on it and return it; with scale None, delegate to
_produce_random (which does not call create()). -/
def Factory.produce (cfg : Config) (scale : Option (ℚ × ℚ × ℚ)) (d : Draws) :
    Volume :=
  match scale with
  | none => Factory._produce_random cfg d
  | some s => (Volume.init cfg s (0, 0, 0) d.rFloor).create

/-- CollectionFactory._produce: when `number` is falsy (None or 0), draw
it as np.random.randint(1, MAX_VOLUMES + 1); then add that many volumes
produced by Factory.produce() with no scale. The Collection container
(shp2obj.py, not among the sources) is modelled from the spec as an
ordered list of Volume instances. rCount is the randint seed for the
count; ds gives the draws consumed by each produced volume. -/
def CollectionFactory._produce (cfg : Config) (number : Option ℕ)
    (rCount : ℕ) (ds : ℕ → Draws) : List Volume :=
  let n : ℕ :=
    match number with
    | none => (randint 1 ((cfg.maxVolumes : ℤ) + 1) rCount).toNat
    | some k => if k = 0 then (randint 1 ((cfg.maxVolumes : ℤ) + 1) rCount).toNat else k
  (List.range n).map (fun i => Factory.produce cfg none (ds i))

/-- CollectionFactory.produce simply delegates to _produce. -/
def CollectionFactory.produce (cfg : Config) (number : Option ℕ)
    (rCount : ℕ) (ds : ℕ → Draws) : List Volume :=
  CollectionFactory._produce cfg number rCount ds

/-- Per-type attachment probability of Volume.add_modules: prob starts
at 0.75 and is set to 1 for the roof type. -/
def moduleProb (name : String) : ℚ := if name = "roof" then 1 else 3 / 4

/-- Per-type loop bound of Volume.add_modules: n starts at 2 and is set
to 1 for the roof type; both the axis loop and the side loop run over
range(n). -/
def moduleN (name : String) : ℕ := if name = "roof" then 1 else 2

/-- The (axis, side) pairs Volume.add_modules iterates for one module
type: for axis in range(n): for side in range(n). -/
def placements (name : String) : List (ℕ × ℕ) :=
  (List.range (moduleN name)).flatMap
    (fun a => (List.range (moduleN name)).map (fun s => (a, s)))

/-- The random draws one placement iteration of add_modules consumes:
the seed of x_step = np.random.randint(2, 6) and the np.random.random()
draw compared against prob. -/
structure PlacementDraws where
  rStep : ℕ
  rProb : ℚ

/-- The x_step drawn at the start of a placement iteration:
np.random.randint(2, 6). -/
def stepSize (pd : PlacementDraws) : ℤ := randint 2 6 pd.rStep

/-- The attachment decision of a placement iteration:
np.random.random() <= prob. -/
def attaches (name : String) (pd : PlacementDraws) : Bool :=
  decide (pd.rProb ≤ moduleProb name)

/-- Modelled from the spec: the module subsystem driven by add_modules
(module.py, not among the sources). moduleApply is module.apply() — the
call the source wraps in try/except; applierApply is the grid applier
call mod.apply(module, step=(x_step, floor), offset=(2.0, 1.0, 2.0, 1.0))
that follows it outside the try/except. Either may raise, modelled as
Except with the exception message. -/
structure ModuleEnv where
  moduleApply : String → ℕ → ℕ → Except String Unit
  applierApply : String → ℕ → ℕ → ℤ × ℚ → Except String Unit

/-- One placement iteration of the innermost loop of Volume.add_modules:
draw x_step, and if the probability draw passes, build and connect the
module, run module.apply() under try/except (printing the exception
message and continuing on failure), then run the applier's apply with
step=(x_step, floor) — this second call is not protected, so its
exception propagates. Returns the printed messages, or the propagated
exception. -/
def placementStep (env : ModuleEnv) (v : Volume) (name : String)
    (axis side : ℕ) (pd : PlacementDraws) : Except String (List String) :=
  if attaches name pd then
    let caught : List String :=
      match env.moduleApply name axis side with
      | Except.ok _ => []
      | Except.error e => [e]
    match env.applierApply name axis side (stepSize pd, v.floor) with
    | Except.ok _ => Except.ok caught
    | Except.error e => Except.error e
  else Except.ok []

/-- Volume.add_modules: for every module type of MODULES (keys passed in
as `modules`, from dataset_config.py), iterate the placements and run
placementStep, accumulating the printed exception messages; a
propagated exception aborts the whole call. pds gives the draws of each
(module type, axis, side) iteration. -/
def Volume.add_modules (env : ModuleEnv) (modules : List String) (v : Volume)
    (pds : String → ℕ → ℕ → PlacementDraws) : Except String (List String) :=
  modules.foldlM
    (fun acc name =>
      (placements name).foldlM
        (fun acc2 p => do
          let msgs ← placementStep env v name p.1 p.2 (pds name p.1 p.2)
          pure (acc2 ++ msgs))
        acc)
    []

/-- A Python value, as far as the assertions of Volume.__init__ can
tell: its class. bool is a subclass of int, so it counts as numeric. -/
inductive PyVal where
  | pint (n : ℤ)
  | pfloat (q : ℚ)
  | pbool (b : Bool)
  | pstr (s : String)
  | pnone
deriving Repr, DecidableEq

/-- Whether issubclass(x.__class__, int) or issubclass(x.__class__, float)
holds for a value x. -/
def PyVal.isNumeric : PyVal → Bool
  | PyVal.pint _ => true
  | PyVal.pfloat _ => true
  | PyVal.pbool _ => true
  | PyVal.pstr _ => false
  | PyVal.pnone => false

/-- The three assertions of Volume.__init__, in source order: location
has length 3, scale has length 3, and the maximum over scale+location of
the numeric indicator equals 1 (i.e. at least one element is numeric).
Returns true when every assertion passes, false when one raises
AssertionError. -/
def initAsserts (scale location : List PyVal) : Bool :=
  (location.length == 3) && (scale.length == 3)
    && (scale ++ location).any PyVal.isNumeric

lemma randint_mem (a b : ℤ) (r : ℕ) (h : a < b) :
    a ≤ randint a b r ∧ randint a b r < b := by
  have hpos : 0 < b - a := by omega
  constructor
  · have := Int.emod_nonneg (r : ℤ) (by omega : b - a ≠ 0)
    unfold randint
    omega
  · have := Int.emod_lt_of_pos (r : ℤ) hpos
    unfold randint
    omega

lemma randint_surj (a b v : ℤ) (h1 : a ≤ v) (h2 : v < b) :
    ∃ r : ℕ, randint a b r = v := by
  refine ⟨(v - a).toNat, ?_⟩
  unfold randint
  have hva : ((v - a).toNat : ℤ) = v - a := Int.toNat_of_nonneg (by omega)
  rw [hva, Int.emod_eq_of_lt (by omega) (by omega)]
  omega

lemma round1_bounds (q : ℚ) (h0 : 0 ≤ q) (h1 : q < 1) :
    0 ≤ round1 q ∧ round1 q ≤ 1 := by
  have hq : round (10 * q) = ⌊10 * q + 1 / 2⌋ := round_eq _
  have hlo : (0 : ℤ) ≤ ⌊10 * q + 1 / 2⌋ := Int.le_floor.2 (by push_cast; linarith)
  have hhi : ⌊10 * q + 1 / 2⌋ < 11 := Int.floor_lt.2 (by push_cast; linarith)
  unfold round1
  rw [hq]
  constructor
  · apply div_nonneg _ (by norm_num)
    exact_mod_cast hlo
  · rw [div_le_one (by norm_num)]
    exact_mod_cast (show ⌊10 * q + 1 / 2⌋ ≤ 10 by omega)

lemma foldlM_except_ok {α β : Type} (f : β → α → Except String β) (l : List α)
    (acc : β) (h : ∀ b a, ∃ c, f b a = Except.ok c) :
    ∃ c, l.foldlM f acc = Except.ok c := by
  induction l generalizing acc with
  | nil => exact ⟨acc, rfl⟩
  | cons x xs ih =>
    obtain ⟨c, hc⟩ := h acc x
    obtain ⟨c2, hc2⟩ := ih c
    refine ⟨c2, ?_⟩
    rw [List.foldlM_cons, hc]
    simpa using hc2

lemma placementStep_ok (env : ModuleEnv) (v : Volume) (name : String)
    (axis side : ℕ) (pd : PlacementDraws)
    (h : ∀ n a s st, env.applierApply n a s st = Except.ok ()) :
    ∃ msgs, placementStep env v name axis side pd = Except.ok msgs := by
  unfold placementStep
  split
  · rw [h]
    exact ⟨_, rfl⟩
  · exact ⟨[], rfl⟩

/-- A sample configuration used by the concrete instantiations below. -/
def cfgW : Config := ⟨1, 1, 1, 5, 5, 5, 3⟩

/-- A sample draw record. -/
def dW : Draws := ⟨0, 0, 0, 0⟩

/-- A constant stream of sample draw records. -/
def dsW : ℕ → Draws := fun _ => dW

/-- A sample volume. -/
def vW : Volume := Volume.init cfgW (1, 1, 1) (0, 0, 0) 0

/-- A constant stream of placement draws whose probability draw always
passes. -/
def pdsW : String → ℕ → ℕ → PlacementDraws := fun _ _ _ => ⟨0, 0⟩

/-- A module environment whose module.apply() succeeds but whose grid
applier raises. -/
def envApplierFails : ModuleEnv :=
  ⟨fun _ _ _ => Except.ok (), fun _ _ _ _ => Except.error "boom"⟩

/-- A module environment whose module.apply() raises but whose grid
applier succeeds. -/
def envModuleFails : ModuleEnv :=
  ⟨fun _ _ _ => Except.error "mod fail", fun _ _ _ _ => Except.ok ()⟩

/-- A configuration whose width band [1, 2) and length band [5, 10) are
disjoint, exposing which band each stored dimension is drawn from. -/
def cfgSwap : Config := ⟨1, 5, 1, 2, 10, 3, 3⟩

/-- A draw record whose length-band seed realises the value 9. -/
def dSwap : Draws := ⟨4, 0, 0, 0⟩

/-- A scale tuple of strings only (no numeric element). -/
def exScale : List PyVal := [PyVal.pstr "a", PyVal.pstr "b", PyVal.pint 1]

/-- A location tuple with no numeric element. -/
def exLoc : List PyVal := [PyVal.pnone, PyVal.pnone, PyVal.pnone]

/-- C1: every Volume that Factory.produce returns — whether built from an
explicit scale tuple or from randomly sampled parameters — stores width,
length and height each at least the configured minimum (MIN_WIDTH,
MIN_LENGTH, MIN_HEIGHT), for any nominal scale including values below
the minimums. -/
theorem C1_dims_ge_min (cfg : Config) (scale : Option (ℚ × ℚ × ℚ)) (d : Draws) :
    (cfg.minWidth : ℚ) ≤ (Factory.produce cfg scale d).width ∧
    (cfg.minLength : ℚ) ≤ (Factory.produce cfg scale d).length ∧
    (cfg.minHeight : ℚ) ≤ (Factory.produce cfg scale d).height := by
  cases scale with
  | none => exact ⟨le_max_left _ _, le_max_left _ _, le_max_left _ _⟩
  | some s => exact ⟨le_max_left _ _, le_max_left _ _, le_max_left _ _⟩

/-- C2 counterexample: the claim says produce(number=N) returns exactly
N volumes for every requested count, but requesting number=0 hits the
falsy test `if not number` and yields a randomly drawn count instead:
here the collection has 1 volume, not 0. -/
theorem C2_count_counterexample :
    (CollectionFactory.produce cfgW (some 0) 0 dsW).length ≠ 0 := by decide

/-- C2 amended: produce(number=N) returns exactly N volumes for every
nonzero N; when number is None — or 0, which the falsy test treats the
same way — the count is drawn from [1, MAX_VOLUMES] (for MAX_VOLUMES ≥ 1). -/
theorem C2_count_amended (cfg : Config) (number : Option ℕ) (rCount : ℕ)
    (ds : ℕ → Draws) :
    (∀ k, number = some k → k ≠ 0 →
      (CollectionFactory.produce cfg number rCount ds).length = k) ∧
    (1 ≤ cfg.maxVolumes → (number = none ∨ number = some 0) →
      1 ≤ (CollectionFactory.produce cfg number rCount ds).length ∧
      (CollectionFactory.produce cfg number rCount ds).length ≤ cfg.maxVolumes) := by
  constructor
  · intro k hk hk0
    subst hk
    simp [CollectionFactory.produce, CollectionFactory._produce, hk0]
  · intro hM hnum
    have h14 : (1 : ℤ) < (cfg.maxVolumes : ℤ) + 1 := by
      have : (1 : ℤ) ≤ (cfg.maxVolumes : ℤ) := by exact_mod_cast hM
      omega
    obtain ⟨hlo, hhi⟩ := randint_mem 1 ((cfg.maxVolumes : ℤ) + 1) rCount h14
    have hlen : (CollectionFactory.produce cfg number rCount ds).length
        = (randint 1 ((cfg.maxVolumes : ℤ) + 1) rCount).toNat := by
      rcases hnum with h | h <;> subst h <;>
        simp [CollectionFactory.produce, CollectionFactory._produce]
    rw [hlen]
    constructor <;> omega

/-- C2 amended, instantiated: requesting 2 volumes yields 2; an
unspecified count lies in [1, MAX_VOLUMES]. -/
theorem C2_count_amended_witness :
    (CollectionFactory.produce cfgW (some 2) 0 dsW).length = 2 ∧
    1 ≤ (CollectionFactory.produce cfgW none 0 dsW).length ∧
    (CollectionFactory.produce cfgW none 0 dsW).length ≤ cfgW.maxVolumes :=
  ⟨(C2_count_amended cfgW (some 2) 0 dsW).1 2 rfl (by decide),
   ((C2_count_amended cfgW none 0 dsW).2 (by decide) (Or.inl rfl)).1,
   ((C2_count_amended cfgW none 0 dsW).2 (by decide) (Or.inl rfl)).2⟩

/-- C3: a placement iteration attaches a module exactly when the uniform
draw is at most the per-type probability; that probability is 1 for the
roof type (so a roof placement always attaches, the draw lying in [0,1))
and 0.75 for every other module type. -/
theorem C3_attach_iff (name : String) (pd : PlacementDraws) :
    (attaches name pd = true ↔ pd.rProb ≤ moduleProb name) ∧
    moduleProb "roof" = 1 ∧
    (name ≠ "roof" → moduleProb name = 3 / 4) ∧
    (0 ≤ pd.rProb → pd.rProb < 1 → attaches "roof" pd = true) := by
  refine ⟨by simp [attaches], by simp [moduleProb], ?_, ?_⟩
  · intro h
    simp [moduleProb, h]
  · intro h0 h1
    simp only [attaches, moduleProb, if_true, decide_eq_true_eq, reduceIte]
    linarith

/-- C3, instantiated at a non-roof module type and a concrete draw. -/
theorem C3_attach_iff_witness :
    (attaches "window" ⟨0, 1 / 2⟩ = true ↔ (1 / 2 : ℚ) ≤ moduleProb "window") ∧
    moduleProb "window" = 3 / 4 ∧
    attaches "roof" ⟨0, 1 / 2⟩ = true :=
  ⟨(C3_attach_iff "window" ⟨0, 1 / 2⟩).1,
   (C3_attach_iff "window" ⟨0, 1 / 2⟩).2.2.1 (by decide),
   (C3_attach_iff "window" ⟨0, 1 / 2⟩).2.2.2 (by norm_num) (by norm_num)⟩

/-- C4 counterexample: the claim says the randomly produced width lies
in [MIN_WIDTH, MAX_WIDTH], but _produce_random places the draw from the
length band [MIN_LENGTH, MAX_LENGTH) into scale[0], which __init__
stores as the width: with MIN_WIDTH = 1, MAX_WIDTH = 2, MIN_LENGTH = 5,
MAX_LENGTH = 10 and a seed realising 9, the stored width is 9 > 2. -/
theorem C4_sampling_counterexample :
    ¬ ((cfgSwap.minWidth : ℚ) ≤ (Factory._produce_random cfgSwap dSwap).width ∧
       (Factory._produce_random cfgSwap dSwap).width ≤ (cfgSwap.maxWidth : ℚ)) := by
  decide

/-- C4 amended: _produce_random draws one uniform integer per axis, with
the HIGH BOUND EXCLUSIVE (np.random.randint samples [low, high)), and the
width and length bands swapped relative to the claim: the stored width is
the draw from [MIN_LENGTH, MAX_LENGTH) clamped by MIN_WIDTH, the stored
length is the draw from [MIN_WIDTH, MAX_WIDTH) clamped by MIN_LENGTH, and
the stored height is the draw from [MIN_HEIGHT, MAX_HEIGHT) clamped by
MIN_HEIGHT; every integer of each half-open band is attainable by some
seed. -/
theorem C4_sampling_amended (cfg : Config) (d : Draws)
    (hW : cfg.minWidth < cfg.maxWidth) (hL : cfg.minLength < cfg.maxLength)
    (hH : cfg.minHeight < cfg.maxHeight) :
    ((Factory._produce_random cfg d).width
        = max (cfg.minWidth : ℚ) ((randint cfg.minLength cfg.maxLength d.rLen : ℤ) : ℚ) ∧
      cfg.minLength ≤ randint cfg.minLength cfg.maxLength d.rLen ∧
      randint cfg.minLength cfg.maxLength d.rLen < cfg.maxLength) ∧
    ((Factory._produce_random cfg d).length
        = max (cfg.minLength : ℚ) ((randint cfg.minWidth cfg.maxWidth d.rWid : ℤ) : ℚ) ∧
      cfg.minWidth ≤ randint cfg.minWidth cfg.maxWidth d.rWid ∧
      randint cfg.minWidth cfg.maxWidth d.rWid < cfg.maxWidth) ∧
    ((Factory._produce_random cfg d).height
        = max (cfg.minHeight : ℚ) ((randint cfg.minHeight cfg.maxHeight d.rHei : ℤ) : ℚ) ∧
      cfg.minHeight ≤ randint cfg.minHeight cfg.maxHeight d.rHei ∧
      randint cfg.minHeight cfg.maxHeight d.rHei < cfg.maxHeight) ∧
    (∀ a b t : ℤ, a ≤ t → t < b → ∃ r : ℕ, randint a b r = t) :=
  ⟨⟨rfl, randint_mem _ _ _ hL⟩, ⟨rfl, randint_mem _ _ _ hW⟩,
   ⟨rfl, randint_mem _ _ _ hH⟩, randint_surj⟩

/-- C4 amended, instantiated at a concrete configuration and seed. -/
theorem C4_sampling_amended_witness :
    (Factory._produce_random cfgW dW).width
        = max (cfgW.minWidth : ℚ) ((randint cfgW.minLength cfgW.maxLength dW.rLen : ℤ) : ℚ) ∧
    cfgW.minLength ≤ randint cfgW.minLength cfgW.maxLength dW.rLen ∧
    randint cfgW.minLength cfgW.maxLength dW.rLen < cfgW.maxLength :=
  (C4_sampling_amended cfgW dW (by decide) (by decide) (by decide)).1

/-- C5 counterexample: the claim says no module-application failure
propagates out of add_modules, but only the first module.apply() call is
wrapped in try/except; the grid applier's apply that follows it is not,
so an exception raised there aborts add_modules: with an applier that
always raises, the call returns the propagated error instead of
finishing. -/
theorem C5_catch_counterexample :
    Volume.add_modules envApplierFails ["roof"] vW pdsW
      = Except.error "boom" ∧
    ∀ msgs, Volume.add_modules envApplierFails ["roof"] vW pdsW
      ≠ Except.ok msgs := by
  constructor
  · rfl
  · intro msgs h
    rw [show Volume.add_modules envApplierFails ["roof"] vW pdsW
          = Except.error "boom" from rfl] at h
    exact Except.noConfusion h

/-- C5 amended: exceptions raised by module.apply() (the call inside the
try/except) are caught, their messages printed, and the loops continue —
whenever the unprotected calls (the grid applier's apply) do not raise,
add_modules returns normally no matter how module.apply() behaves;
exceptions of the unprotected calls propagate to the caller. -/
theorem C5_catch_amended (env : ModuleEnv) (modules : List String)
    (v : Volume) (pds : String → ℕ → ℕ → PlacementDraws)
    (h : ∀ n a s st, env.applierApply n a s st = Except.ok ()) :
    ∃ msgs, Volume.add_modules env modules v pds = Except.ok msgs := by
  unfold Volume.add_modules
  apply foldlM_except_ok
  intro b name
  apply foldlM_except_ok
  intro b2 p
  obtain ⟨m, hm⟩ := placementStep_ok env v name p.1 p.2 (pds name p.1 p.2) h
  refine ⟨b2 ++ m, ?_⟩
  rw [hm]
  rfl

/-- C5 amended, instantiated: with an always-raising module.apply() and a
well-behaved applier, add_modules still returns normally. -/
theorem C5_catch_amended_witness :
    ∃ msgs, Volume.add_modules envModuleFails ["window"] vW pdsW
      = Except.ok msgs :=
  C5_catch_amended envModuleFails ["window"] vW pdsW (fun _ _ _ _ => rfl)

/-- C6 counterexample: the claim says every volume Factory.produce
returns has had create() invoked exactly once, but the random path
(_produce_random, taken whenever no scale is given) returns the volume
without calling create(): its create count is 0, not 1. -/
theorem C6_create_counterexample :
    (Factory.produce cfgW none dW).createCount ≠ 1 := by decide

/-- C6 amended: only the explicit-scale path of Factory.produce calls
create() (exactly once, so the host mesh is materialized) before
returning; the random path returns the volume with create() never
invoked and the mesh still unmaterialized. -/
theorem C6_create_amended (cfg : Config) (s : ℚ × ℚ × ℚ) (d : Draws) :
    ((Factory.produce cfg (some s) d).createCount = 1 ∧
     (Factory.produce cfg (some s) d).meshCreated = true) ∧
    ((Factory.produce cfg none d).createCount = 0 ∧
     (Factory.produce cfg none d).meshCreated = false) :=
  ⟨⟨rfl, rfl⟩, ⟨rfl, rfl⟩⟩

/-- C7: every module type other than roof gets exactly the four
placements (axis, side) ∈ {0,1} × {0,1}, and the roof type gets exactly
the single placement (0, 0). -/
theorem C7_placement_grid (name : String) :
    (name ≠ "roof" →
      placements name = [(0, 0), (0, 1), (1, 0), (1, 1)] ∧
      (placements name).length = 4) ∧
    placements "roof" = [(0, 0)] := by
  constructor
  · intro h
    have hn : moduleN name = 2 := by simp [moduleN, h]
    have hp : placements name = [(0, 0), (0, 1), (1, 0), (1, 1)] := by
      unfold placements
      rw [hn]
      rfl
    refine ⟨hp, ?_⟩
    rw [hp]
    rfl
  · rfl

/-- C7, instantiated at a non-roof module type. -/
theorem C7_placement_grid_witness :
    placements "window" = [(0, 0), (0, 1), (1, 0), (1, 1)] ∧
    placements "roof" = [(0, 0)] :=
  ⟨((C7_placement_grid "window").1 (by decide)).1, (C7_placement_grid "window").2⟩

/-- C8: the floor height of every constructed Volume equals 2.7 plus the
uniform [0,1) draw rounded to one decimal place, lies in [2.7, 3.7], and
does not depend on the scale or location arguments. -/
theorem C8_floor_band (cfg : Config) (scale location : ℚ × ℚ × ℚ) (r : ℚ)
    (h0 : 0 ≤ r) (h1 : r < 1) :
    (Volume.init cfg scale location r).floor = 27 / 10 + round1 r ∧
    27 / 10 ≤ (Volume.init cfg scale location r).floor ∧
    (Volume.init cfg scale location r).floor ≤ 37 / 10 ∧
    (∀ scale2 location2 : ℚ × ℚ × ℚ,
      (Volume.init cfg scale2 location2 r).floor
        = (Volume.init cfg scale location r).floor) := by
  obtain ⟨hlo, hhi⟩ := round1_bounds r h0 h1
  refine ⟨rfl, ?_, ?_, fun _ _ => rfl⟩
  · show (27 : ℚ) / 10 ≤ 27 / 10 + round1 r
    linarith
  · show (27 : ℚ) / 10 + round1 r ≤ 37 / 10
    linarith

/-- C8, instantiated at a concrete draw. -/
theorem C8_floor_band_witness :
    (Volume.init cfgW (1, 1, 1) (0, 0, 0) (1 / 2)).floor
        = 27 / 10 + round1 (1 / 2) ∧
    27 / 10 ≤ (Volume.init cfgW (1, 1, 1) (0, 0, 0) (1 / 2)).floor ∧
    (Volume.init cfgW (1, 1, 1) (0, 0, 0) (1 / 2)).floor ≤ 37 / 10 :=
  ⟨(C8_floor_band cfgW (1, 1, 1) (0, 0, 0) (1 / 2) (by norm_num) (by norm_num)).1,
   (C8_floor_band cfgW (1, 1, 1) (0, 0, 0) (1 / 2) (by norm_num) (by norm_num)).2.1,
   (C8_floor_band cfgW (1, 1, 1) (0, 0, 0) (1 / 2) (by norm_num) (by norm_num)).2.2.1⟩

/-- C9: the x_step drawn at each placement iteration is an integer of
{2, 3, 4, 5} (np.random.randint(2, 6)), every one of those values being
realisable, and it is a function of that iteration's own seed alone. -/
theorem C9_step_band (pd : PlacementDraws) :
    (2 ≤ stepSize pd ∧ stepSize pd ≤ 5) ∧
    (∀ t : ℤ, 2 ≤ t → t ≤ 5 → ∃ r : ℕ, stepSize ⟨r, 0⟩ = t) := by
  constructor
  · obtain ⟨h1, h2⟩ := randint_mem 2 6 pd.rStep (by omega)
    refine ⟨h1, ?_⟩
    show randint 2 6 pd.rStep ≤ 5
    omega
  · intro t h1 h2
    obtain ⟨r, hr⟩ := randint_surj 2 6 t h1 (by omega)
    exact ⟨r, hr⟩

/-- C9, instantiated: a concrete seed's step lies in the band, and the
value 4 is realisable. -/
theorem C9_step_band_witness :
    (2 ≤ stepSize ⟨0, 0⟩ ∧ stepSize ⟨0, 0⟩ ≤ 5) ∧
    (∃ r : ℕ, stepSize ⟨r, 0⟩ = 4) :=
  ⟨(C9_step_band ⟨0, 0⟩).1, (C9_step_band ⟨0, 0⟩).2 4 (by decide) (by decide)⟩

/-- C10: the assertions of Volume.__init__ fail exactly when the location
tuple's length is not 3, the scale tuple's length is not 3, or no element
of the concatenation scale+location is an int or a float; a tuple
containing non-numeric elements passes as long as one element of the
concatenation is numeric. -/
theorem C10_assert_iff (scale location : List PyVal) :
    initAsserts scale location = false ↔
      (location.length ≠ 3 ∨ scale.length ≠ 3 ∨
        ∀ x ∈ scale ++ location, x.isNumeric = false) := by
  constructor
  · intro hfalse
    by_cases hl : location.length = 3
    · by_cases hs : scale.length = 3
      · refine Or.inr (Or.inr ?_)
        intro x hx
        by_contra hnum
        have hnum2 : x.isNumeric = true := by
          cases hb : x.isNumeric
          · exact absurd hb hnum
          · rfl
        have htrue : initAsserts scale location = true := by
          unfold initAsserts
          rw [hl, hs]
          simp only [beq_self_eq_true, Bool.true_and, List.any_eq_true]
          exact ⟨x, hx, hnum2⟩
        rw [htrue] at hfalse
        exact Bool.noConfusion hfalse
      · exact Or.inr (Or.inl hs)
    · exact Or.inl hl
  · intro hdisj
    cases hb : initAsserts scale location with
    | false => rfl
    | true =>
      exfalso
      unfold initAsserts at hb
      simp only [Bool.and_eq_true, beq_iff_eq, List.any_eq_true] at hb
      obtain ⟨⟨hl, hs⟩, x, hx, hnum⟩ := hb
      rcases hdisj with h | h | h
      · exact h hl
      · exact h hs
      · rw [h x hx] at hnum
        exact Bool.noConfusion hnum

end BuildingGen
